import Mathlib

/-!
Shallow embedding of the document-analysis core (`main.py`) of the
Demystifying-the-legal-documents repository, together with proofs of the
specification claims about it.

External collaborators are modelled as explicit function-valued parameters:
the generative LLM and the dedicated translation service return
`Except String String` (an `error` models a raised exception whose `str(e)`
is the payload).  Every operation returns, besides its result string, the
ordered list of remote calls it issued, so that "performs no remote call",
"tried first" and "never retried" become statable properties.
-/

namespace DocAssist

/-- Python slice `s[:n]` for a nonnegative bound. -/
def pySlice (s : String) (n : Nat) : String := String.mk (s.data.take n)

/-- Left part of Python `str.strip`: drop leading whitespace. -/
def lstripL (s : List Char) : List Char := s.dropWhile Char.isWhitespace

/-- Right part of Python `str.strip`: drop trailing whitespace. -/
def rstripL (s : List Char) : List Char := (s.reverse.dropWhile Char.isWhitespace).reverse

/-- Python `str.strip` on character lists. -/
def stripL (s : List Char) : List Char := rstripL (lstripL s)

/-- Python `str.strip`. -/
def pstrip (s : String) : String := String.mk (stripL s.data)

/-- Number of (possibly overlapping) occurrences of `pat` in a character list. -/
def countOccsL (pat : List Char) : List Char → Nat
  | [] => 0
  | c :: rest => (if pat.isPrefixOf (c :: rest) then 1 else 0) + countOccsL pat rest

/-- Number of occurrences of the pattern string `pat` inside `s`. -/
def countOccs (pat s : String) : Nat := countOccsL pat.data s.data

/-- Executable infix test on character lists. -/
def hasInfixL (pat : List Char) : List Char → Bool
  | [] => pat.isEmpty
  | c :: rest => pat.isPrefixOf (c :: rest) || hasInfixL pat rest

/-- Python `pat in hay` substring test. -/
def pyIn (pat hay : String) : Bool := hasInfixL pat.data hay.data

/-- Python `dict.get(key, default)` over an association list. -/
def pyGet : List (String × String) → String → String → String
  | [], _, d => d
  | (k, v) :: rest, key, d => if key = k then v else pyGet rest key d

/-- Python `s.split('/')[0]`: the part of `s` before its first `/`. -/
def pySplitHead (s : String) : String := String.mk (s.data.takeWhile (fun c => !(c == '/')))

/-- Concatenation of a list of strings (the `+=` accumulation in the source). -/
def sjoin (l : List String) : String := l.foldr (fun a b => a ++ b) ""

/-- A remote call issued by an operation. -/
inductive Call where
  | llm : String → Call
  | transSvc : String → String → Call
deriving DecidableEq

/-- The process environment: the Gemini model, the OCR/translation capability
flag `OCR_ENABLED`, and the dedicated translation service. -/
structure Env where
  llm : String → Except String String
  ocrEnabled : Bool
  transSvc : String → String → Except String String

/-- One uploaded PDF: the per-page `extract_text()` results actually obtained
(an exception while reading truncates this list), and the outcome of the OCR
service on the file bytes (`ok (some t)` = full text annotation `t`,
`ok none` = no text annotations, `error e` = the call raised `e`). -/
structure PdfDoc where
  pages : List (Option String)
  ocr : Except String (Option String)

/-- The end-of-document marker appended after each document. -/
def endMarker : String := "--- End of Document ---"

/-- The literal separator appended after each document text. -/
def endMarkerSep : String := "\n\n--- End of Document ---\n\n"

/-- The per-document text: page texts joined; if that strips to empty and OCR
is enabled, the OCR outcome (an OCR exception degrades to a bracketed
failure marker). -/
def docText (ocrEnabled : Bool) (d : PdfDoc) : String :=
  let text := sjoin (d.pages.map (fun p => p.getD ""))
  if ocrEnabled ∧ pstrip text = "" then
    match d.ocr with
    | Except.ok (some t) => t
    | Except.ok none => ""
    | Except.error e => "[OCR failed: " ++ e ++ "]"
  else text

/-- `extract_text_from_pdfs`: merged text of all files, each stripped document
text followed by the end-of-document separator, the whole stripped. -/
def extract_text_from_pdfs (env : Env) (pdf_files : List PdfDoc) : String :=
  pstrip (sjoin (pdf_files.map (fun d => pstrip (docText env.ocrEnabled d) ++ endMarkerSep)))

/-- The classification prompt of `detect_document_type`. -/
def detectPrompt (text : String) : String :=
  "\n    Analyze this document and classify it into one of these categories:\n    - Legal Contract/Agreement\n    - Medical Policy/Insurance\n    - Terms of Service\n    - Privacy Policy\n    - Medical Report/Prescription\n    - Government Document\n    - Employment Document\n    - Other Legal Document\n    \n    Document text: " ++ pySlice text 1000 ++ "\n    \n    Respond with just the category name and a brief explanation (1-2 sentences).\n    "

/-- `detect_document_type`. -/
def detect_document_type (env : Env) (text : String) : String × List Call :=
  let prompt := detectPrompt text
  match env.llm prompt with
  | Except.ok r => (pstrip r, [Call.llm prompt])
  | Except.error e => ("Document Classification (Error: " ++ e ++ ")", [Call.llm prompt])

/-- Entity-extraction template for the `Legal Contract` key. -/
def entityLegalContract : String :=
  "\n        Extract these key legal elements from this contract:\n        - Parties involved (who are the contracting parties)\n        - Contract duration/important dates\n        - Payment terms and amounts\n        - Key obligations and responsibilities\n        - Termination clauses\n        - Penalties or consequences for breach\n        - Governing law/jurisdiction\n        "

/-- Entity-extraction template for the `Medical Policy` key. -/
def entityMedicalPolicy : String :=
  "\n        Extract these medical policy elements:\n        - Coverage details (what's included)\n        - Premium amounts and payment schedule\n        - Deductibles and co-payments\n        - Excluded conditions or treatments\n        - Claim filing procedures\n        - Network providers and restrictions\n        - Policy period and renewal terms\n        "

/-- Entity-extraction template for the `Medical Report` key. -/
def entityMedicalReport : String :=
  "\n        Extract these medical elements:\n        - Diagnosis or medical findings\n        - Prescribed medications and dosages\n        - Treatment recommendations\n        - Follow-up instructions\n        - Test results and their significance\n        - Lifestyle recommendations\n        - Warning signs to watch for\n        "

/-- Entity-extraction template for the `Employment Document` key. -/
def entityEmployment : String :=
  "\n        Extract these employment elements:\n        - Job title and responsibilities\n        - Salary and benefits\n        - Work schedule and location\n        - Reporting structure\n        - Performance expectations\n        - Termination conditions\n        - Confidentiality requirements\n        "

/-- The `entity_prompts` table of `extract_key_entities`. -/
def entity_prompts : List (String × String) :=
  [("Legal Contract", entityLegalContract),
   ("Medical Policy", entityMedicalPolicy),
   ("Medical Report", entityMedicalReport),
   ("Employment Document", entityEmployment)]

/-- The generic fallback instruction of `extract_key_entities`. -/
def entityDefault : String := "Extract key information from this document:"

/-- The `base_prompt` computed at line 134: `entity_prompts.get(doc_type.split('/')[0], ...)`. -/
def entityBasePrompt (doc_type : String) : String :=
  pyGet entity_prompts (pySplitHead doc_type) entityDefault

/-- The full prompt assembled by `extract_key_entities`. -/
def entityPrompt (text doc_type : String) : String :=
  "\n    You are an expert legal/medical document analyst. \n    \n    " ++ entityBasePrompt doc_type ++ "\n    \n    Document: " ++ pySlice text 4000 ++ "\n    \n    Present the information in a clear, structured format with bullet points.\n    Focus only on information that is explicitly mentioned in the document.\n    "

/-- `extract_key_entities`. -/
def extract_key_entities (env : Env) (text doc_type : String) : String × List Call :=
  let prompt := entityPrompt text doc_type
  match env.llm prompt with
  | Except.ok r => (pstrip r, [Call.llm prompt])
  | Except.error e => ("Key entity extraction failed: " ++ e, [Call.llm prompt])

/-- Checklist template for the `Legal Contract` key. -/
def checklistLegalContract : String :=
  "\n        Create a practical checklist for someone who needs to comply with this contract:\n        - Pre-signing requirements (what to verify before signing)\n        - Important deadlines and dates to remember\n        - Key obligations they must fulfill\n        - Payment schedules and amounts\n        - Documentation they need to maintain\n        - Warning signs of potential issues\n        "

/-- Checklist template for the `Medical Policy` key. -/
def checklistMedicalPolicy : String :=
  "\n        Create an actionable checklist for policy holders:\n        - How to file claims (step-by-step process)\n        - Important deadlines for claims and renewals\n        - What documentation to keep\n        - Emergency procedures and contacts\n        - Annual requirements (checkups, renewals)\n        - Cost-saving tips based on policy terms\n        "

/-- Checklist template for the `Medical Report` key. -/
def checklistMedicalReport : String :=
  "\n        Create a patient action checklist:\n        - Medications to take (names, dosages, timing)\n        - Lifestyle changes recommended\n        - Follow-up appointments to schedule\n        - Symptoms to monitor and report\n        - Emergency warning signs requiring immediate attention\n        - Questions to ask at next appointment\n        "

/-- Checklist template for the `Employment Document` key. -/
def checklistEmployment : String :=
  "\n        Create an employee checklist:\n        - Onboarding requirements to complete\n        - Key policies to understand and follow\n        - Performance milestones and deadlines\n        - Benefits to enroll in\n        - Required training or certifications\n        - Important contacts and reporting procedures\n        "

/-- The `checklist_prompts` table of `generate_compliance_checklist`. -/
def checklist_prompts : List (String × String) :=
  [("Legal Contract", checklistLegalContract),
   ("Medical Policy", checklistMedicalPolicy),
   ("Medical Report", checklistMedicalReport),
   ("Employment Document", checklistEmployment)]

/-- The generic fallback instruction of `generate_compliance_checklist`. -/
def checklistDefault : String := "Create an action checklist based on this document:"

/-- The `base_prompt` computed at line 198. -/
def checklistBasePrompt (doc_type : String) : String :=
  pyGet checklist_prompts (pySplitHead doc_type) checklistDefault

/-- The full prompt assembled by `generate_compliance_checklist`. -/
def checklistPrompt (text doc_type : String) : String :=
  "\n    " ++ checklistBasePrompt doc_type ++ "\n    \n    Document: " ++ pySlice text 4000 ++ "\n    \n    Format as a clear, actionable checklist with specific items they can act on.\n    Use checkboxes (- [ ]) format for each actionable item.\n    "

/-- `generate_compliance_checklist`. -/
def generate_compliance_checklist (env : Env) (text doc_type : String) : String × List Call :=
  let prompt := checklistPrompt text doc_type
  match env.llm prompt with
  | Except.ok r => (pstrip r, [Call.llm prompt])
  | Except.error e => ("Checklist generation failed: " ++ e, [Call.llm prompt])

/-- The full prompt assembled by `explain_complex_terms`. -/
def termsPrompt (text doc_type : String) : String :=
  "\n    You are an expert in " ++ doc_type ++ " who specializes in explaining complex terms to everyday people.\n    \n    Analyze this document and find complex legal, medical, or technical terms that regular people might not understand.\n    For each term, provide a simple explanation in plain language.\n    \n    Document: " ++ pySlice text 4000 ++ "\n    \n    Format each explanation as:\n    **[Term]**: Simple explanation in everyday language\n    \n    Only include terms that actually appear in the document.\n    Focus on the most important or confusing terms (maximum 10 terms).\n    "

/-- `explain_complex_terms`. -/
def explain_complex_terms (env : Env) (text doc_type : String) : String × List Call :=
  let prompt := termsPrompt text doc_type
  match env.llm prompt with
  | Except.ok r => (pstrip r, [Call.llm prompt])
  | Except.error e => ("Term explanation failed: " ++ e, [Call.llm prompt])

/-- Risk template for the `Legal Contract` key. -/
def riskLegalContract : String :=
  "\n        Identify potential risks, concerns, or unfavorable terms in this contract:\n        - Unusual or strict penalties\n        - Vague or ambiguous language that could cause problems\n        - Automatic renewal clauses\n        - Limitation of liability issues\n        - Unfavorable payment terms\n        - Difficult termination conditions\n        "

/-- Risk template for the `Medical Policy` key. -/
def riskMedicalPolicy : String :=
  "\n        Identify potential issues or limitations with this medical policy:\n        - Significant coverage gaps or exclusions\n        - High out-of-pocket costs or deductibles\n        - Restrictive network limitations\n        - Complex claim procedures that could lead to denials\n        - Pre-authorization requirements\n        - Waiting periods for coverage\n        "

/-- Risk template for the `Medical Report` key. -/
def riskMedicalReport : String :=
  "\n        Identify important health considerations and warnings:\n        - Serious conditions that require immediate attention\n        - Potential drug interactions or side effects\n        - Lifestyle changes that are critical for health\n        - Symptoms that would require emergency care\n        - Follow-up care that shouldn't be delayed\n        - Test results that need monitoring\n        "

/-- Risk template for the `Employment Document` key. -/
def riskEmployment : String :=
  "\n        Identify potential employment concerns:\n        - Unusual restrictive clauses (non-compete, etc.)\n        - Unclear job expectations or responsibilities\n        - Below-market compensation or benefits\n        - Strict performance requirements\n        - Limited advancement opportunities\n        - Concerning termination conditions\n        "

/-- The `risk_prompts` table of `risk_assessment`. -/
def risk_prompts : List (String × String) :=
  [("Legal Contract", riskLegalContract),
   ("Medical Policy", riskMedicalPolicy),
   ("Medical Report", riskMedicalReport),
   ("Employment Document", riskEmployment)]

/-- The generic fallback instruction of `risk_assessment`. -/
def riskDefault : String := "Identify important considerations and potential risks in this document:"

/-- The `base_prompt` computed at line 284. -/
def riskBasePrompt (doc_type : String) : String :=
  pyGet risk_prompts (pySplitHead doc_type) riskDefault

/-- The full prompt assembled by `risk_assessment`. -/
def riskPrompt (text doc_type : String) : String :=
  "\n    " ++ riskBasePrompt doc_type ++ "\n    \n    Document: " ++ pySlice text 4000 ++ "\n    \n    Present as clear warnings or considerations. Be specific about what to watch out for.\n    Note: This is informational analysis, not professional legal or medical advice.\n    "

/-- `risk_assessment`. -/
def risk_assessment (env : Env) (text doc_type : String) : String × List Call :=
  let prompt := riskPrompt text doc_type
  match env.llm prompt with
  | Except.ok r => (pstrip r, [Call.llm prompt])
  | Except.error e => ("Risk assessment failed: " ++ e, [Call.llm prompt])

/-- The `domain_context` prefix of `ask_gemini`. -/
def askDomainContext (doc_type : String) : String :=
  if doc_type = "" then "" else "You are an expert analyst specializing in " ++ doc_type ++ " documents. "

/-- The full prompt assembled by `ask_gemini`. -/
def askPrompt (question context language doc_type : String) : String :=
  "\n    " ++ askDomainContext doc_type ++ "You are helping someone understand their document in simple, clear language.\n    \n    Document Type: " ++ doc_type ++ "\n    Document Context: " ++ pySlice context 12000 ++ "\n    \n    User Question: " ++ question ++ "\n    \n    Instructions:\n    - Provide a detailed, helpful answer in " ++ language ++ "\n    - Focus on practical implications and actionable information\n    - Explain any complex terms you use\n    - If the document doesn't contain the answer, say so clearly\n    - Be specific and cite relevant parts of the document when possible\n    \n    Answer:\n    "

/-- `ask_gemini`. -/
def ask_gemini (env : Env) (question context language doc_type : String) : String × List Call :=
  if context = "" then ("No content extracted from the documents.", [])
  else
    let prompt := askPrompt question context language doc_type
    match env.llm prompt with
    | Except.ok r => (pstrip r, [Call.llm prompt])
    | Except.error e =>
      ("I apologize, but I encountered an error while analyzing your question: " ++ e, [Call.llm prompt])

/-- The `domain_note` of `simplify_text`. -/
def simplifyDomainNote (doc_type : String) : String :=
  if doc_type = "" then "" else " Focus on " ++ doc_type ++ " terminology and concepts."

/-- The full prompt assembled by `simplify_text`. -/
def simplifyPrompt (text doc_type : String) : String :=
  "\n    Simplify the following text into plain, user-friendly language that anyone can understand.\n    " ++ simplifyDomainNote doc_type ++ "\n    \n    Guidelines:\n    - Replace legal/medical jargon with everyday words\n    - Break down complex sentences into simpler ones\n    - Explain what things mean in practical terms\n    - Keep the important information but make it accessible\n    \n    Text to simplify: " ++ pySlice text 6000 ++ "\n    "

/-- `simplify_text`. -/
def simplify_text (env : Env) (text doc_type : String) : String × List Call :=
  if text = "" then ("No content to simplify.", [])
  else
    let prompt := simplifyPrompt text doc_type
    match env.llm prompt with
    | Except.ok r => (pstrip r, [Call.llm prompt])
    | Except.error e => ("Text simplification failed: " ++ e, [Call.llm prompt])

/-- The `domain_focus` of `summarize_text` (Python substring tests on `doc_type`). -/
def summarizeDomainFocus (doc_type : String) : String :=
  if pyIn ("Legal Contract") doc_type then "Focus on parties, obligations, terms, and key dates."
  else if pyIn ("Medical") doc_type then "Focus on coverage, costs, procedures, and important limitations."
  else if pyIn ("Employment") doc_type then "Focus on role, compensation, responsibilities, and key policies."
  else ""

/-- The full prompt assembled by `summarize_text`. -/
def summarizePrompt (text doc_type : String) : String :=
  "\n    Create a comprehensive summary of this " ++ doc_type ++ " document.\n    " ++ summarizeDomainFocus doc_type ++ "\n    \n    Document: " ++ pySlice text 8000 ++ "\n    \n    Structure your summary with:\n    1. Document Overview (what type of document and main purpose)\n    2. Key Points (most important information)\n    3. Important Details (dates, amounts, requirements)\n    4. Action Items (what the reader needs to do)\n    \n    Keep it detailed but easy to understand.\n    "

/-- `summarize_text`. -/
def summarize_text (env : Env) (text doc_type : String) : String × List Call :=
  if text = "" then ("No content to summarize.", [])
  else
    let prompt := summarizePrompt text doc_type
    match env.llm prompt with
    | Except.ok r => (pstrip r, [Call.llm prompt])
    | Except.error e => ("Document summary failed: " ++ e, [Call.llm prompt])

/-- The fixed `lang_map` of `translate_text`. -/
def lang_map : List (String × String) :=
  [("English", "en"), ("Hindi", "hi"), ("Kannada", "kn")]

/-- The Gemini translation prompt of `translate_text`. -/
def translatePrompt (text target_language : String) : String :=
  "\n    Translate the following text into " ++ target_language ++ ".\n    Maintain the formatting and structure of the original text.\n    Keep technical terms accurate and provide context where needed.\n    \n    Text to translate: " ++ pySlice text 8000 ++ "\n    "

/-- The Gemini fallback path of `translate_text`; `pre` is the log of calls
already issued before falling back. -/
def translateViaGemini (env : Env) (text target_language : String) (pre : List Call) : String × List Call :=
  let prompt := translatePrompt text target_language
  match env.llm prompt with
  | Except.ok r => (pstrip r, pre ++ [Call.llm prompt])
  | Except.error e =>
    ("Translation to " ++ target_language ++ " failed: " ++ e, pre ++ [Call.llm prompt])

/-- `translate_text`. -/
def translate_text (env : Env) (text target_language : String) : String × List Call :=
  if text = "" ∨ target_language = "English" then (text, [])
  else if env.ocrEnabled then
    let target := pyGet lang_map target_language ("en")
    match env.transSvc text target with
    | Except.ok r => (r, [Call.transSvc text target])
    | Except.error _ => translateViaGemini env text target_language [Call.transSvc text target]
  else translateViaGemini env text target_language []

/-- Resolution rule as the specification words it: the DocumentType string is
taken up to (not including) its first `/`, and that key is tested for an
exact or substring match against the table keys; if no key matches, the
generic fallback is selected.  This definition follows the wording of the
spec and is compared against the source's lookup. -/
def specTemplateSelectAux : List (String × String) → String → String → String
  | [], _, generic => generic
  | (k, v) :: rest, key, generic =>
    if k = key ∨ hasInfixL k.data key.data then v else specTemplateSelectAux rest key generic

/-- The spec-worded template resolution applied to a DocumentType string. -/
def specTemplateSelect (table : List (String × String)) (generic doc_type : String) : String :=
  specTemplateSelectAux table (pySplitHead doc_type) generic

end DocAssist

namespace DocAssist

/-! ## Auxiliary lemmas about the string plumbing -/

theorem data_append (s t : String) : (s ++ t).data = s.data ++ t.data := rfl

theorem data_mk (l : List Char) : (String.mk l).data = l := rfl

theorem eq_empty_iff_data (s : String) : s = "" ↔ s.data = [] := by
  obtain ⟨l⟩ := s
  constructor
  · intro h
    have h2 : (String.mk l).data = ("" : String).data := congrArg String.data h
    simpa using h2
  · intro h
    rw [data_mk] at h; subst h; rfl

theorem sjoin_data (l : List String) : (sjoin l).data = (l.map String.data).flatten := by
  induction l with
  | nil => rfl
  | cons a r ih =>
    show (a ++ sjoin r).data = _
    rw [data_append, ih]; rfl

theorem pySlice_pySlice (s : String) (n : Nat) : pySlice (pySlice s n) n = pySlice s n := by
  simp [pySlice, List.take_take]

theorem pySlice_eq_empty_iff (s : String) (n : Nat) (hn : 0 < n) : pySlice s n = "" ↔ s = "" := by
  rw [eq_empty_iff_data, eq_empty_iff_data, pySlice, data_mk, List.take_eq_nil_iff]
  constructor
  · rintro (h | h)
    · omega
    · exact h
  · intro h
    exact Or.inr h

theorem prefixOf_length_le {pat s : List Char} (h : pat.isPrefixOf s = true) :
    pat.length ≤ s.length := by
  induction pat generalizing s with
  | nil => simp
  | cons p ps ih =>
    cases s with
    | nil => simp [List.isPrefixOf] at h
    | cons b bs =>
      simp only [List.isPrefixOf, Bool.and_eq_true] at h
      simpa using ih h.2

theorem prefixOf_self (pat : List Char) : pat.isPrefixOf pat = true := by
  induction pat with
  | nil => rfl
  | cons p ps ih => simp [List.isPrefixOf, ih]

theorem prefixOf_append {pat a : List Char} (b : List Char) (h : pat.isPrefixOf a = true) :
    pat.isPrefixOf (a ++ b) = true := by
  induction pat generalizing a with
  | nil => simp [List.isPrefixOf]
  | cons p ps ih =>
    cases a with
    | nil => simp [List.isPrefixOf] at h
    | cons x a' =>
      simp only [List.isPrefixOf, Bool.and_eq_true] at h ⊢
      exact ⟨h.1, ih h.2⟩

theorem prefixOf_append_notMem (c : Char) (b : List Char) :
    ∀ (pat a : List Char), c ∉ pat → pat.isPrefixOf (a ++ c :: b) = pat.isPrefixOf a
  | [], a, _ => by simp [List.isPrefixOf]
  | p :: ps, [], hc => by
    have hpc : (p == c) = false := by
      apply beq_eq_false_iff_ne.mpr
      intro h; exact hc (h ▸ List.mem_cons_self p ps)
    simp [List.isPrefixOf, hpc]
  | p :: ps, x :: a', hc => by
    show (p == x && ps.isPrefixOf (a' ++ c :: b)) = (p == x && ps.isPrefixOf a')
    rw [prefixOf_append_notMem c b ps a' (fun h => hc (List.mem_cons_of_mem _ h))]

theorem prefixOf_concat {pat y : List Char} {c : Char} (h : pat.isPrefixOf (y ++ [c]) = true) :
    pat.isPrefixOf y = true ∨ pat = y ++ [c] := by
  induction pat generalizing y with
  | nil => exact Or.inl (by simp [List.isPrefixOf])
  | cons p ps ih =>
    cases y with
    | nil =>
      simp only [List.nil_append, List.isPrefixOf, Bool.and_eq_true, beq_iff_eq] at h
      cases ps with
      | nil => exact Or.inr (by simp [h.1])
      | cons q qs => simp [List.isPrefixOf] at h
    | cons x y' =>
      simp only [List.cons_append, List.isPrefixOf, Bool.and_eq_true, beq_iff_eq] at h
      rcases ih h.2 with h3 | h3
      · exact Or.inl (by simp [List.isPrefixOf, h.1, h3])
      · exact Or.inr (by simp [h.1, h3])

theorem countOccsL_cons (pat : List Char) (c : Char) (rest : List Char) :
    countOccsL pat (c :: rest) =
      (if pat.isPrefixOf (c :: rest) then 1 else 0) + countOccsL pat rest := rfl

theorem countOccsL_eq_zero_of_lt {pat s : List Char} (h : s.length < pat.length) :
    countOccsL pat s = 0 := by
  induction s with
  | nil => rfl
  | cons c rest ih =>
    have h1 : pat.isPrefixOf (c :: rest) = false := by
      cases hp : pat.isPrefixOf (c :: rest) with
      | false => rfl
      | true =>
        have := prefixOf_length_le hp
        simp only [List.length_cons] at this h
        omega
    rw [countOccsL_cons, h1]
    simp only [List.length_cons] at h
    simp [ih (by omega)]

theorem countOccsL_self {pat : List Char} (h : pat ≠ []) : countOccsL pat pat = 1 := by
  cases pat with
  | nil => exact absurd rfl h
  | cons p ps =>
    rw [countOccsL_cons, prefixOf_self,
      countOccsL_eq_zero_of_lt (by simp only [List.length_cons]; omega)]
    simp

theorem countOccsL_append {pat : List Char} {c : Char} (hne : pat ≠ []) (hc : c ∉ pat)
    (a b : List Char) : countOccsL pat (a ++ c :: b) = countOccsL pat a + countOccsL pat b := by
  induction a with
  | nil =>
    obtain ⟨p, ps, rfl⟩ := List.exists_cons_of_ne_nil hne
    have hpc : (p == c) = false := by
      apply beq_eq_false_iff_ne.mpr
      intro h; exact hc (h ▸ List.mem_cons_self p ps)
    rw [List.nil_append, countOccsL_cons]
    simp [List.isPrefixOf, hpc, countOccsL]
  | cons x a' ih =>
    rw [List.cons_append, countOccsL_cons, countOccsL_cons,
      show x :: (a' ++ c :: b) = (x :: a') ++ c :: b from rfl,
      prefixOf_append_notMem c b pat (x :: a') hc, ih]
    omega

theorem lstripL_cons_ws {c : Char} (hc : c.isWhitespace = true) (s : List Char) :
    lstripL (c :: s) = lstripL s := by
  simp [lstripL, List.dropWhile, hc]

theorem lstripL_cons_keep {c : Char} (hc : c.isWhitespace = false) (s : List Char) :
    lstripL (c :: s) = c :: s := by
  simp [lstripL, List.dropWhile, hc]

theorem rstripL_concat_ws {c : Char} (hc : c.isWhitespace = true) (s : List Char) :
    rstripL (s ++ [c]) = rstripL s := by
  simp [rstripL, List.reverse_append, List.dropWhile, hc]

theorem rstripL_concat_keep {c : Char} (hc : c.isWhitespace = false) (s : List Char) :
    rstripL (s ++ [c]) = s ++ [c] := by
  simp [rstripL, List.reverse_append, List.dropWhile, hc]

theorem countOccsL_lstrip {pat : List Char} (hne : pat ≠ [])
    (hw : ∀ x, pat.head? = some x → x.isWhitespace = false) (s : List Char) :
    countOccsL pat (lstripL s) = countOccsL pat s := by
  obtain ⟨p, ps, rfl⟩ := List.exists_cons_of_ne_nil hne
  have hp : p.isWhitespace = false := hw p rfl
  induction s with
  | nil => rfl
  | cons c rest ih =>
    cases hcw : c.isWhitespace with
    | true =>
      rw [lstripL_cons_ws hcw, ih, countOccsL_cons]
      have hpc : (p == c) = false := by
        apply beq_eq_false_iff_ne.mpr
        intro h; rw [h, hcw] at hp; exact Bool.noConfusion hp
      simp [List.isPrefixOf, hpc]
    | false =>
      rw [lstripL_cons_keep hcw]

theorem countOccsL_concat_ws {pat : List Char} {q : Char} (hlast : pat.getLast? = some q)
    (hq : q.isWhitespace = false) {c : Char} (hc : c.isWhitespace = true) (s : List Char) :
    countOccsL pat (s ++ [c]) = countOccsL pat s := by
  induction s with
  | nil =>
    cases hpre : pat.isPrefixOf [c] with
    | false => simp [countOccsL_cons, hpre, countOccsL]
    | true =>
      rcases prefixOf_concat (y := []) hpre with h | h
      · cases pat with
        | nil => simp at hlast
        | cons a as => simp [List.isPrefixOf] at h
      · subst h
        have hcq : c = q := by simpa using hlast
        rw [← hcq, hc] at hq
        exact Bool.noConfusion hq
  | cons x s' ih =>
    rw [List.cons_append, countOccsL_cons, countOccsL_cons, ih]
    have hpp : pat.isPrefixOf (x :: (s' ++ [c])) = pat.isPrefixOf (x :: s') := by
      cases hpre : pat.isPrefixOf (x :: s') with
      | true =>
        have := prefixOf_append (a := x :: s') [c] hpre
        rw [show (x :: s') ++ [c] = x :: (s' ++ [c]) from rfl] at this
        exact this
      | false =>
        cases hpre2 : pat.isPrefixOf (x :: (s' ++ [c])) with
        | false => rfl
        | true =>
          rw [show x :: (s' ++ [c]) = (x :: s') ++ [c] from rfl] at hpre2
          rcases prefixOf_concat hpre2 with h | h
          · rw [h] at hpre; exact Bool.noConfusion hpre
          · rw [h] at hlast
            simp only [List.getLast?_concat, Option.some.injEq] at hlast
            rw [← hlast, hc] at hq
            exact Bool.noConfusion hq
    rw [hpp]

theorem countOccsL_rstrip {pat : List Char} {q : Char} (hlast : pat.getLast? = some q)
    (hq : q.isWhitespace = false) (s : List Char) :
    countOccsL pat (rstripL s) = countOccsL pat s := by
  induction s using List.reverseRecOn with
  | nil => rfl
  | append_singleton s' c ih =>
    cases hcw : c.isWhitespace with
    | true => rw [rstripL_concat_ws hcw, ih, countOccsL_concat_ws hlast hq hcw]
    | false => rw [rstripL_concat_keep hcw]

theorem countOccsL_strip {pat : List Char} {q : Char} (hne : pat ≠ [])
    (hw : ∀ x, pat.head? = some x → x.isWhitespace = false)
    (hlast : pat.getLast? = some q) (hq : q.isWhitespace = false) (s : List Char) :
    countOccsL pat (stripL s) = countOccsL pat s := by
  rw [stripL, countOccsL_rstrip hlast hq, countOccsL_lstrip hne hw]

theorem head?_dropWhile {p : Char → Bool} {l : List Char} {x : Char}
    (h : (l.dropWhile p).head? = some x) : p x = false := by
  induction l with
  | nil => simp [List.dropWhile] at h
  | cons c r ih =>
    cases hc : p c with
    | true =>
      rw [List.dropWhile_cons, if_pos hc] at h
      exact ih h
    | false =>
      rw [List.dropWhile_cons, if_neg (by simp [hc])] at h
      simp only [List.head?_cons, Option.some.injEq] at h
      rw [← h]; exact hc

theorem rstripL_isPre (y : List Char) : rstripL y <+: y := by
  have h1 : (y.reverse.dropWhile Char.isWhitespace) <:+ y.reverse := List.dropWhile_suffix _
  have h2 := List.reverse_prefix.mpr h1
  rw [List.reverse_reverse] at h2
  exact h2

theorem head?_rstripL {y : List Char} {c : Char} (h : (rstripL y).head? = some c) :
    y.head? = some c := by
  obtain ⟨t, ht⟩ := rstripL_isPre y
  rw [← ht, List.head?_append, h]
  rfl

theorem head?_stripL {x : List Char} {c : Char} (h : (stripL x).head? = some c) :
    c.isWhitespace = false := by
  have h2 := head?_rstripL h
  exact head?_dropWhile h2

theorem getLast?_rstripL {y : List Char} {c : Char} (h : (rstripL y).getLast? = some c) :
    c.isWhitespace = false := by
  rw [rstripL, List.getLast?_reverse] at h
  exact head?_dropWhile h

theorem getLast?_stripL {x : List Char} {c : Char} (h : (stripL x).getLast? = some c) :
    c.isWhitespace = false := getLast?_rstripL h

theorem goodLast_flatten {ls : List (List Char)}
    (h : ∀ u ∈ ls, ∀ c, u.getLast? = some c → c.isWhitespace = false) :
    ∀ c, ls.flatten.getLast? = some c → c.isWhitespace = false := by
  induction ls with
  | nil => intro c hc; simp at hc
  | cons u rest ih =>
    intro c hc
    rw [List.flatten_cons, List.getLast?_append] at hc
    cases hv : rest.flatten.getLast? with
    | some d =>
      rw [hv] at hc
      simp only [Option.or_some, Option.some.injEq] at hc
      subst hc
      exact ih (fun v hv' => h v (List.mem_cons_of_mem _ hv')) d hv
    | none =>
      rw [hv] at hc
      simp only [Option.none_or] at hc
      exact h u (List.mem_cons_self _ _) c hc

theorem sublist_concat_decomp {u x : List Char} {a : Char} (h : List.Sublist u (x ++ [a])) :
    List.Sublist u x ∨ ∃ u', u = u' ++ [a] ∧ List.Sublist u' x := by
  have h1 : List.Sublist u.reverse (x ++ [a]).reverse := List.reverse_sublist.mpr h
  rw [List.reverse_append] at h1
  simp only [List.reverse_singleton, List.singleton_append] at h1
  rcases List.sublist_cons_iff.mp h1 with h2 | ⟨r, hr, h2⟩
  · left
    have h3 := List.reverse_sublist.mpr h2
    simpa using h3
  · right
    refine ⟨r.reverse, ?_, ?_⟩
    · have h3 := congrArg List.reverse hr
      simpa using h3
    · have h3 := List.reverse_sublist.mpr h2
      simpa using h3

theorem sublist_drop_ws_suffix {u v w : List Char} (h : List.Sublist u (v ++ w))
    (hw : ∀ c ∈ w, c.isWhitespace = true)
    (hu : ∀ c, u.getLast? = some c → c.isWhitespace = false) : List.Sublist u v := by
  induction w using List.reverseRecOn generalizing v with
  | nil => simpa using h
  | append_singleton w' a ih =>
    rw [← List.append_assoc] at h
    rcases sublist_concat_decomp h with h2 | ⟨u', hu', h2⟩
    · exact ih h2 (fun c hc => hw c (List.mem_append_left _ hc))
    · have ha : a.isWhitespace = true := hw a (List.mem_append_right _ (List.mem_singleton_self a))
      have h3 : u.getLast? = some a := by rw [hu']; exact List.getLast?_concat _
      rw [hu a h3] at ha
      exact Bool.noConfusion ha

theorem rstripL_decomp (v : List Char) :
    ∃ w, v = rstripL v ++ w ∧ ∀ c ∈ w, c.isWhitespace = true := by
  refine ⟨(v.reverse.takeWhile Char.isWhitespace).reverse, ?_, ?_⟩
  · have h1 : v.reverse.takeWhile Char.isWhitespace ++ v.reverse.dropWhile Char.isWhitespace
        = v.reverse := List.takeWhile_append_dropWhile Char.isWhitespace v.reverse
    have h2 := congrArg List.reverse h1
    simp only [List.reverse_append, List.reverse_reverse] at h2
    exact h2.symm
  · intro c hc
    rw [List.mem_reverse] at hc
    exact List.mem_takeWhile_imp hc

theorem sublist_rstripL {u v : List Char} (h : List.Sublist u v)
    (hu : ∀ c, u.getLast? = some c → c.isWhitespace = false) : List.Sublist u (rstripL v) := by
  obtain ⟨w, hv, hw⟩ := rstripL_decomp v
  rw [hv] at h
  exact sublist_drop_ws_suffix h hw hu

set_option maxRecDepth 100000 in
theorem marker_ne_nil : endMarker.data ≠ [] := by decide

set_option maxRecDepth 100000 in
theorem marker_no_newline : '\n' ∉ endMarker.data := by decide

set_option maxRecDepth 100000 in
theorem marker_head : endMarker.data.head? = some '-' := by decide

set_option maxRecDepth 100000 in
theorem marker_last : endMarker.data.getLast? = some '-' := by decide

set_option maxRecDepth 100000 in
theorem marker_cons : endMarker.data = '-' :: ("-- End of Document ---").data := by decide

set_option maxRecDepth 100000 in
theorem sep_data : endMarkerSep.data = '\n' :: '\n' :: (endMarker.data ++ ['\n', '\n']) := by
  decide

theorem marker_head_ws : ∀ x, endMarker.data.head? = some x → x.isWhitespace = false := by
  intro x hx
  rw [marker_head] at hx
  simp only [Option.some.injEq] at hx
  subst hx
  decide

theorem dash_not_ws : ('-').isWhitespace = false := by decide

theorem countOccsL_marker_strip (s : List Char) :
    countOccsL endMarker.data (stripL s) = countOccsL endMarker.data s :=
  countOccsL_strip marker_ne_nil marker_head_ws marker_last dash_not_ws s

theorem extract_data_cons (env : Env) (d : PdfDoc) (ds : List PdfDoc) :
    (sjoin ((d :: ds).map (fun x => pstrip (docText env.ocrEnabled x) ++ endMarkerSep))).data
    = (pstrip (docText env.ocrEnabled d)).data ++
      (endMarkerSep.data ++
        (sjoin (ds.map (fun x => pstrip (docText env.ocrEnabled x) ++ endMarkerSep))).data) := by
  show ((pstrip (docText env.ocrEnabled d) ++ endMarkerSep) ++ sjoin _).data = _
  rw [data_append, data_append, List.append_assoc]

theorem countOccs_allText (env : Env) : ∀ ds : List PdfDoc,
    (∀ d ∈ ds, countOccsL endMarker.data (docText env.ocrEnabled d).data = 0) →
    countOccsL endMarker.data
      ((sjoin (ds.map (fun x => pstrip (docText env.ocrEnabled x) ++ endMarkerSep))).data)
      = ds.length := by
  intro ds
  induction ds with
  | nil => intro _; rfl
  | cons d ds' ih =>
    intro h
    rw [extract_data_cons, sep_data]
    have hA : countOccsL endMarker.data (pstrip (docText env.ocrEnabled d)).data = 0 := by
      show countOccsL endMarker.data (stripL (docText env.ocrEnabled d).data) = 0
      rw [countOccsL_marker_strip]
      exact h d (List.mem_cons_self _ _)
    set R := (sjoin (ds'.map (fun x => pstrip (docText env.ocrEnabled x) ++ endMarkerSep))).data
      with hR
    have hMid : ('\n' :: '\n' :: (endMarker.data ++ ['\n', '\n'])) ++ R
        = '\n' :: ('\n' :: (endMarker.data ++ '\n' :: ('\n' :: R))) := by
      simp [List.append_assoc]
    rw [hMid, countOccsL_append marker_ne_nil marker_no_newline]
    have h1 : countOccsL endMarker.data ('\n' :: (endMarker.data ++ '\n' :: ('\n' :: R)))
        = countOccsL endMarker.data (endMarker.data ++ '\n' :: ('\n' :: R)) := by
      rw [show ('\n' :: (endMarker.data ++ '\n' :: ('\n' :: R)))
          = [] ++ '\n' :: (endMarker.data ++ '\n' :: ('\n' :: R)) from rfl,
        countOccsL_append marker_ne_nil marker_no_newline]
      simp [countOccsL]
    have h2 : countOccsL endMarker.data (endMarker.data ++ '\n' :: ('\n' :: R))
        = 1 + countOccsL endMarker.data ('\n' :: R) := by
      rw [countOccsL_append marker_ne_nil marker_no_newline,
        countOccsL_self marker_ne_nil]
    have h3 : countOccsL endMarker.data ('\n' :: R) = countOccsL endMarker.data R := by
      rw [show ('\n' :: R) = [] ++ '\n' :: R from rfl,
        countOccsL_append marker_ne_nil marker_no_newline]
      simp [countOccsL]
    rw [hA, h1, h2, h3, ih (fun x hx => h x (List.mem_cons_of_mem _ hx))]
    simp [Nat.add_comm]

theorem flatten_strips_sublist_all (env : Env) : ∀ ds : List PdfDoc,
    List.Sublist ((ds.map (fun x => (pstrip (docText env.ocrEnabled x)).data)).flatten)
      ((sjoin (ds.map (fun x => pstrip (docText env.ocrEnabled x) ++ endMarkerSep))).data) := by
  intro ds
  induction ds with
  | nil => exact List.nil_sublist _
  | cons d ds' ih =>
    rw [extract_data_cons]
    rw [List.map_cons, List.flatten_cons]
    apply List.Sublist.append (List.Sublist.refl _)
    exact ih.trans (List.sublist_append_right _ _)

theorem flatten_strips_sublist_lstrip (env : Env) : ∀ ds : List PdfDoc,
    List.Sublist ((ds.map (fun x => (pstrip (docText env.ocrEnabled x)).data)).flatten)
      (lstripL ((sjoin (ds.map (fun x => pstrip (docText env.ocrEnabled x) ++ endMarkerSep))).data)) := by
  intro ds
  cases ds with
  | nil => exact List.nil_sublist _
  | cons d ds' =>
    rw [extract_data_cons, sep_data, List.map_cons, List.flatten_cons]
    set R := (sjoin (ds'.map (fun x => pstrip (docText env.ocrEnabled x) ++ endMarkerSep))).data
      with hR
    have hMid : ('\n' :: '\n' :: (endMarker.data ++ ['\n', '\n'])) ++ R
        = '\n' :: ('\n' :: (endMarker.data ++ '\n' :: ('\n' :: R))) := by
      simp [List.append_assoc]
    rw [hMid]
    have hRest : List.Sublist ((ds'.map (fun x => (pstrip (docText env.ocrEnabled x)).data)).flatten) R :=
      flatten_strips_sublist_all env ds'
    have hRM : List.Sublist R (endMarker.data ++ '\n' :: ('\n' :: R)) := by
      have h1 : List.Sublist R (['\n', '\n'] ++ R) := List.sublist_append_right _ _
      have h2 : List.Sublist (['\n', '\n'] ++ R) (endMarker.data ++ (['\n', '\n'] ++ R)) :=
        List.sublist_append_right _ _
      exact (h1.trans h2)
    cases hT : (pstrip (docText env.ocrEnabled d)).data with
    | nil =>
      rw [List.nil_append]
      have hL : lstripL ([] ++ '\n' :: ('\n' :: (endMarker.data ++ '\n' :: ('\n' :: R))))
          = endMarker.data ++ '\n' :: ('\n' :: R) := by
        rw [List.nil_append, lstripL_cons_ws (by decide), lstripL_cons_ws (by decide),
          marker_cons, List.cons_append, lstripL_cons_keep (by decide), ← List.cons_append,
          ← marker_cons]
      rw [hL]
      exact hRest.trans hRM
    | cons c T' =>
      have hc : c.isWhitespace = false := by
        apply head?_stripL (x := (docText env.ocrEnabled d).data)
        show (pstrip (docText env.ocrEnabled d)).data.head? = some c
        rw [hT]; rfl
      have hL : lstripL ((c :: T') ++ '\n' :: ('\n' :: (endMarker.data ++ '\n' :: ('\n' :: R))))
          = (c :: T') ++ '\n' :: ('\n' :: (endMarker.data ++ '\n' :: ('\n' :: R))) := by
        rw [List.cons_append, lstripL_cons_keep hc, ← List.cons_append]
      rw [hL]
      apply List.Sublist.append (List.Sublist.refl _)
      apply hRest.trans
      apply hRM.trans
      have h3 : List.Sublist (endMarker.data ++ '\n' :: ('\n' :: R))
          (['\n', '\n'] ++ (endMarker.data ++ '\n' :: ('\n' :: R))) :=
        List.sublist_append_right _ _
      exact h3

theorem goodLast_flatten_strips (env : Env) (ds : List PdfDoc) :
    ∀ c, ((ds.map (fun x => (pstrip (docText env.ocrEnabled x)).data)).flatten).getLast? = some c →
      c.isWhitespace = false := by
  apply goodLast_flatten
  intro u hu c hc
  rw [List.mem_map] at hu
  obtain ⟨d, _, rfl⟩ := hu
  exact getLast?_stripL hc

/-- Claim C2 (amended): for every batch of input documents (including the
empty batch), `extract_text_from_pdfs` never raises (it is a total function
of the batch and collaborator behaviour) and, provided no document's
extracted text itself contains the end-of-document marker, returns a string
containing exactly one occurrence of the marker per input document, with the
documents' (stripped) texts appearing in input order as a subsequence of the
result. -/
theorem c2_extract_marker_count_ordered (env : Env) (pdf_files : List PdfDoc)
    (h : ∀ d ∈ pdf_files, countOccs endMarker (docText env.ocrEnabled d) = 0) :
    countOccs endMarker (extract_text_from_pdfs env pdf_files) = pdf_files.length ∧
    List.Sublist ((pdf_files.map (fun d => (pstrip (docText env.ocrEnabled d)).data)).flatten)
      (extract_text_from_pdfs env pdf_files).data := by
  constructor
  · show countOccsL endMarker.data
      (stripL ((sjoin (pdf_files.map (fun x => pstrip (docText env.ocrEnabled x) ++ endMarkerSep))).data)) = _
    rw [countOccsL_marker_strip]
    exact countOccs_allText env pdf_files h
  · show List.Sublist _
      (stripL ((sjoin (pdf_files.map (fun x => pstrip (docText env.ocrEnabled x) ++ endMarkerSep))).data))
    exact sublist_rstripL (flatten_strips_sublist_lstrip env pdf_files)
      (goodLast_flatten_strips env pdf_files)

set_option maxRecDepth 1000000 in
/-- Witness for C2's amended theorem at a concrete one-document batch. -/
theorem c2_extract_marker_count_ordered_witness :
    (∀ d ∈ [PdfDoc.mk [some "hello"] (Except.ok none)],
      countOccs endMarker
        (docText (Env.mk (fun _ => Except.error "") false (fun _ _ => Except.error "")).ocrEnabled d) = 0) ∧
    (countOccs endMarker
      (extract_text_from_pdfs (Env.mk (fun _ => Except.error "") false (fun _ _ => Except.error ""))
        [PdfDoc.mk [some "hello"] (Except.ok none)]) = 1 ∧
    List.Sublist
      (([PdfDoc.mk [some "hello"] (Except.ok none)].map
        (fun d => (pstrip (docText (Env.mk (fun _ => Except.error "") false
          (fun _ _ => Except.error "")).ocrEnabled d)).data)).flatten)
      (extract_text_from_pdfs (Env.mk (fun _ => Except.error "") false (fun _ _ => Except.error ""))
        [PdfDoc.mk [some "hello"] (Except.ok none)]).data) :=
  ⟨by decide, c2_extract_marker_count_ordered _ _ (by decide)⟩

set_option maxRecDepth 1000000 in
/-- Counterexample to C2 as stated: a single-document batch whose page text
is itself the end-of-document marker produces two occurrences of the marker,
not exactly one per input document. -/
theorem c2_counterexample :
    countOccs endMarker
      (extract_text_from_pdfs (Env.mk (fun _ => Except.error "") false (fun _ _ => Except.error ""))
        [PdfDoc.mk [some "--- End of Document ---"] (Except.ok none)]) = 2 ∧
    ¬ (countOccs endMarker
      (extract_text_from_pdfs (Env.mk (fun _ => Except.error "") false (fun _ _ => Except.error ""))
        [PdfDoc.mk [some "--- End of Document ---"] (Except.ok none)])
      = ([PdfDoc.mk [some "--- End of Document ---"] (Except.ok none)] : List PdfDoc).length) := by
  constructor
  · decide
  · decide

/-- Claim C3: if the target language is English (the default) or the text is
empty, `translate_text` returns its input unchanged and performs no remote
call (the call log is empty: neither the translation service nor the LLM is
invoked). -/
theorem c3_translate_identity (env : Env) (text target_language : String)
    (h : target_language = "English" ∨ text = "") :
    translate_text env text target_language = (text, []) := by
  rcases h with h | h
  · simp [translate_text, h]
  · simp [translate_text, h]

/-- Witness for C3 at concrete inputs. -/
theorem c3_translate_identity_witness :
    (("English" : String) = "English" ∨ ("hello" : String) = "") ∧
    translate_text (Env.mk (fun _ => Except.error "") true (fun _ _ => Except.error ""))
      "hello" "English" = ("hello", []) :=
  ⟨Or.inl rfl, c3_translate_identity _ "hello" "English" (Or.inl rfl)⟩

/-- Claim C9: on empty document context, `ask_gemini`, `simplify_text` and
`summarize_text` short-circuit to their fixed strings with no remote call. -/
theorem c9_empty_short_circuit (env : Env) (question language doc_type : String) :
    ask_gemini env question "" language doc_type
      = ("No content extracted from the documents.", []) ∧
    simplify_text env "" doc_type = ("No content to simplify.", []) ∧
    summarize_text env "" doc_type = ("No content to summarize.", []) := by
  refine ⟨?_, ?_, ?_⟩ <;> rfl

/-- Claim C8: `detect_document_type` is a function of the LLM's response to
the classification prompt alone; two runs whose (deterministic) LLM stubs
agree on every prompt yield the same category string on identical text. -/
theorem c8_detect_deterministic (env1 env2 : Env) (text : String)
    (h : ∀ p, env1.llm p = env2.llm p) :
    detect_document_type env1 text = detect_document_type env2 text := by
  simp only [detect_document_type, h]

/-- Witness for C8 at concrete inputs. -/
theorem c8_detect_deterministic_witness :
    (∀ p, (Env.mk (fun q => Except.ok q) false (fun _ _ => Except.error "")).llm p
      = (Env.mk (fun q => Except.ok q) false (fun _ _ => Except.error "")).llm p) ∧
    detect_document_type (Env.mk (fun q => Except.ok q) false (fun _ _ => Except.error "")) "contract"
      = detect_document_type (Env.mk (fun q => Except.ok q) false (fun _ _ => Except.error "")) "contract" :=
  ⟨fun _ => rfl, c8_detect_deterministic _ _ "contract" (fun _ => rfl)⟩

theorem append_left_ne_empty {s : String} (h : s ≠ "") (t : String) : s ++ t ≠ "" := by
  intro he
  rw [eq_empty_iff_data, data_append, List.append_eq_nil] at he
  exact h ((eq_empty_iff_data s).mpr he.1)

/-- Claim C4: whenever the LLM call fails, each Prompt Dispatcher operation
returns the non-empty string made of the operation's name, " failed: ", and
the underlying failure reason, rather than raising (for `summarize_text` this
concerns non-empty input, on which its LLM call actually happens). -/
theorem c4_failure_strings (env : Env) (text doc_type : String) (e : String)
    (hf : ∀ p, env.llm p = Except.error e) :
    (extract_key_entities env text doc_type).fst = "Key entity extraction failed: " ++ e ∧
    (generate_compliance_checklist env text doc_type).fst = "Checklist generation failed: " ++ e ∧
    (explain_complex_terms env text doc_type).fst = "Term explanation failed: " ++ e ∧
    (risk_assessment env text doc_type).fst = "Risk assessment failed: " ++ e ∧
    (text ≠ "" → (summarize_text env text doc_type).fst = "Document summary failed: " ++ e) ∧
    (extract_key_entities env text doc_type).fst ≠ "" ∧
    (generate_compliance_checklist env text doc_type).fst ≠ "" ∧
    (explain_complex_terms env text doc_type).fst ≠ "" ∧
    (risk_assessment env text doc_type).fst ≠ "" := by
  have h1 : (extract_key_entities env text doc_type).fst = "Key entity extraction failed: " ++ e := by
    simp [extract_key_entities, hf]
  have h2 : (generate_compliance_checklist env text doc_type).fst
      = "Checklist generation failed: " ++ e := by
    simp [generate_compliance_checklist, hf]
  have h3 : (explain_complex_terms env text doc_type).fst = "Term explanation failed: " ++ e := by
    simp [explain_complex_terms, hf]
  have h4 : (risk_assessment env text doc_type).fst = "Risk assessment failed: " ++ e := by
    simp [risk_assessment, hf]
  refine ⟨h1, h2, h3, h4, ?_, ?_, ?_, ?_, ?_⟩
  · intro ht
    simp [summarize_text, ht, hf]
  · rw [h1]; exact append_left_ne_empty (by decide) e
  · rw [h2]; exact append_left_ne_empty (by decide) e
  · rw [h3]; exact append_left_ne_empty (by decide) e
  · rw [h4]; exact append_left_ne_empty (by decide) e

/-- Witness for C4 under a concrete always-failing LLM. -/
theorem c4_failure_strings_witness :
    (∀ p, (Env.mk (fun _ => Except.error "boom") false (fun _ _ => Except.error "")).llm p
        = Except.error "boom") ∧
    ((extract_key_entities (Env.mk (fun _ => Except.error "boom") false (fun _ _ => Except.error ""))
        "doc" "X").fst = "Key entity extraction failed: " ++ "boom" ∧
     (generate_compliance_checklist (Env.mk (fun _ => Except.error "boom") false
        (fun _ _ => Except.error "")) "doc" "X").fst = "Checklist generation failed: " ++ "boom" ∧
     (explain_complex_terms (Env.mk (fun _ => Except.error "boom") false (fun _ _ => Except.error ""))
        "doc" "X").fst = "Term explanation failed: " ++ "boom" ∧
     (risk_assessment (Env.mk (fun _ => Except.error "boom") false (fun _ _ => Except.error ""))
        "doc" "X").fst = "Risk assessment failed: " ++ "boom" ∧
     (("doc" : String) ≠ "" →
       (summarize_text (Env.mk (fun _ => Except.error "boom") false (fun _ _ => Except.error ""))
        "doc" "X").fst = "Document summary failed: " ++ "boom") ∧
     (extract_key_entities (Env.mk (fun _ => Except.error "boom") false (fun _ _ => Except.error ""))
        "doc" "X").fst ≠ "" ∧
     (generate_compliance_checklist (Env.mk (fun _ => Except.error "boom") false
        (fun _ _ => Except.error "")) "doc" "X").fst ≠ "" ∧
     (explain_complex_terms (Env.mk (fun _ => Except.error "boom") false (fun _ _ => Except.error ""))
        "doc" "X").fst ≠ "" ∧
     (risk_assessment (Env.mk (fun _ => Except.error "boom") false (fun _ _ => Except.error ""))
        "doc" "X").fst ≠ "") :=
  ⟨fun _ => rfl, c4_failure_strings _ "doc" "X" "boom" (fun _ => rfl)⟩

theorem pySlice_empty (n : Nat) : pySlice "" n = "" := by
  rw [eq_empty_iff_data, pySlice, data_mk, List.take_eq_nil_iff]
  exact Or.inr rfl

/-- Claim C7: each operation embeds only a fixed budget of document text in
its LLM prompt: the operations are invariant under truncating their text
argument to that budget (4000 characters for entity extraction, checklist
generation, term explanation and risk assessment; 8000 for summarization;
12000 for conversational QA). -/
theorem c7_truncation_budgets (env : Env) (text doc_type question language : String) :
    extract_key_entities env text doc_type
      = extract_key_entities env (pySlice text 4000) doc_type ∧
    generate_compliance_checklist env text doc_type
      = generate_compliance_checklist env (pySlice text 4000) doc_type ∧
    explain_complex_terms env text doc_type
      = explain_complex_terms env (pySlice text 4000) doc_type ∧
    risk_assessment env text doc_type = risk_assessment env (pySlice text 4000) doc_type ∧
    summarize_text env text doc_type = summarize_text env (pySlice text 8000) doc_type ∧
    ask_gemini env question text language doc_type
      = ask_gemini env question (pySlice text 12000) language doc_type := by
  have hp1 : entityPrompt (pySlice text 4000) doc_type = entityPrompt text doc_type := by
    simp [entityPrompt, pySlice_pySlice]
  have hp2 : checklistPrompt (pySlice text 4000) doc_type = checklistPrompt text doc_type := by
    simp [checklistPrompt, pySlice_pySlice]
  have hp3 : termsPrompt (pySlice text 4000) doc_type = termsPrompt text doc_type := by
    simp [termsPrompt, pySlice_pySlice]
  have hp4 : riskPrompt (pySlice text 4000) doc_type = riskPrompt text doc_type := by
    simp [riskPrompt, pySlice_pySlice]
  refine ⟨?_, ?_, ?_, ?_, ?_, ?_⟩
  · simp only [extract_key_entities, hp1]
  · simp only [generate_compliance_checklist, hp2]
  · simp only [explain_complex_terms, hp3]
  · simp only [risk_assessment, hp4]
  · by_cases h : text = ""
    · subst h
      rw [pySlice_empty]
    · have h8 : pySlice text 8000 ≠ "" :=
        fun hc => h ((pySlice_eq_empty_iff text 8000 (by omega)).mp hc)
      have hp5 : summarizePrompt (pySlice text 8000) doc_type = summarizePrompt text doc_type := by
        simp [summarizePrompt, pySlice_pySlice]
      simp only [summarize_text, if_neg h, if_neg h8, hp5]
  · by_cases h : text = ""
    · subst h
      rw [pySlice_empty]
    · have h12 : pySlice text 12000 ≠ "" :=
        fun hc => h ((pySlice_eq_empty_iff text 12000 (by omega)).mp hc)
      have hp6 : askPrompt question (pySlice text 12000) language doc_type
          = askPrompt question text language doc_type := by
        simp [askPrompt, pySlice_pySlice]
      simp only [ask_gemini, if_neg h, if_neg h12, hp6]

/-- Claim C10: for non-empty text and a target language name outside the
fixed table (not English, Hindi or Kannada), when the dedicated translation
service is available, `translate_text` calls it with the default ISO code
"en" rather than rejecting the unknown language. -/
theorem c10_unknown_language_en (env : Env) (text target_language : String)
    (ht : text ≠ "") (h1 : target_language ≠ "English") (h2 : target_language ≠ "Hindi")
    (h3 : target_language ≠ "Kannada") (hocr : env.ocrEnabled = true) :
    ∃ rest, (translate_text env text target_language).snd
      = Call.transSvc text "en" :: rest := by
  have hmap : pyGet lang_map target_language ("en") = "en" := by
    simp [pyGet, lang_map, h1, h2, h3]
  have hcond : ¬(text = "" ∨ target_language = "English") := by
    rintro (h | h)
    · exact ht h
    · exact h1 h
  simp only [translate_text, if_neg hcond, hocr, if_pos, hmap]
  cases hsvc : env.transSvc text "en" with
  | ok r => exact ⟨[], by simp [hsvc]⟩
  | error err =>
    refine ⟨[Call.llm (translatePrompt text target_language)], ?_⟩
    show (translateViaGemini env text target_language [Call.transSvc text "en"]).snd = _
    cases hllm : env.llm (translatePrompt text target_language) with
    | ok r => simp [translateViaGemini, hllm]
    | error e => simp [translateViaGemini, hllm]

/-- Witness for C10 at the unknown language "Marathi". -/
theorem c10_unknown_language_en_witness :
    (("hi there" : String) ≠ "") ∧ (("Marathi" : String) ≠ "English") ∧
    (("Marathi" : String) ≠ "Hindi") ∧ (("Marathi" : String) ≠ "Kannada") ∧
    ((Env.mk (fun _ => Except.error "x") true (fun _ _ => Except.ok "T")).ocrEnabled = true) ∧
    ∃ rest, (translate_text (Env.mk (fun _ => Except.error "x") true (fun _ _ => Except.ok "T"))
      "hi there" "Marathi").snd = Call.transSvc "hi there" "en" :: rest :=
  ⟨by decide, by decide, by decide, by decide, rfl,
    c10_unknown_language_en _ "hi there" "Marathi" (by decide) (by decide) (by decide)
      (by decide) rfl⟩

/-- Claim C5: for non-empty text and a non-default target language,
`translate_text` tries the dedicated translation service first when
available (the service call heads the log, with the ISO code from the fixed
table); on any service failure it falls through silently to the LLM fallback
(issuing exactly one service call and one LLM call, never retrying the
service, and surfacing no service error in the result); the fallback prompt
embeds at most 8000 characters of the text; and if the LLM fallback itself
fails the result is "Translation to <language> failed: <error>". -/
theorem c5_translate_fallback (env : Env) (text target_language : String)
    (ht : text ≠ "") (hl : target_language ≠ "English") :
    (∀ r, env.ocrEnabled = true →
      env.transSvc text (pyGet lang_map target_language ("en")) = Except.ok r →
      translate_text env text target_language
        = (r, [Call.transSvc text (pyGet lang_map target_language ("en"))])) ∧
    (∀ err r, env.ocrEnabled = true →
      env.transSvc text (pyGet lang_map target_language ("en")) = Except.error err →
      env.llm (translatePrompt text target_language) = Except.ok r →
      translate_text env text target_language
        = (pstrip r, [Call.transSvc text (pyGet lang_map target_language ("en")),
            Call.llm (translatePrompt text target_language)])) ∧
    (∀ err e, env.ocrEnabled = true →
      env.transSvc text (pyGet lang_map target_language ("en")) = Except.error err →
      env.llm (translatePrompt text target_language) = Except.error e →
      translate_text env text target_language
        = ("Translation to " ++ target_language ++ " failed: " ++ e,
           [Call.transSvc text (pyGet lang_map target_language ("en")),
            Call.llm (translatePrompt text target_language)])) ∧
    (∀ e, env.ocrEnabled = false →
      env.llm (translatePrompt text target_language) = Except.error e →
      translate_text env text target_language
        = ("Translation to " ++ target_language ++ " failed: " ++ e,
           [Call.llm (translatePrompt text target_language)])) ∧
    translatePrompt text target_language = translatePrompt (pySlice text 8000) target_language := by
  have hcond : ¬(text = "" ∨ target_language = "English") := by
    rintro (h | h)
    · exact ht h
    · exact hl h
  refine ⟨?_, ?_, ?_, ?_, ?_⟩
  · intro r hocr hsvc
    simp [translate_text, if_neg hcond, hocr, hsvc]
  · intro err r hocr hsvc hllm
    simp [translate_text, if_neg hcond, hocr, hsvc, translateViaGemini, hllm]
  · intro err e hocr hsvc hllm
    simp [translate_text, if_neg hcond, hocr, hsvc, translateViaGemini, hllm]
  · intro e hocr hllm
    simp [translate_text, if_neg hcond, hocr, translateViaGemini, hllm]
  · simp [translatePrompt, pySlice_pySlice]

/-- Witness for C5: with the service and the LLM both failing, the concrete
result and call log of the fallback chain. -/
theorem c5_translate_fallback_witness :
    (("hello" : String) ≠ "") ∧ (("Hindi" : String) ≠ "English") ∧
    translate_text (Env.mk (fun _ => Except.error "llmboom") true (fun _ _ => Except.error "svcboom"))
        "hello" "Hindi"
      = ("Translation to " ++ "Hindi" ++ " failed: " ++ "llmboom",
         [Call.transSvc "hello" (pyGet lang_map "Hindi" ("en")),
          Call.llm (translatePrompt "hello" "Hindi")]) :=
  ⟨by decide, by decide,
    (c5_translate_fallback _ "hello" "Hindi" (by decide) (by decide)).2.2.1 "svcboom" "llmboom"
      rfl rfl rfl⟩

theorem infix_mid5 (a b c d e : String) : List.IsInfix b.data (a ++ b ++ c ++ d ++ e).data :=
  ⟨a.data, (c ++ d ++ e).data, by simp [data_append, List.append_assoc]⟩

set_option maxRecDepth 1000000 in
/-- Counterexample to C1 as stated: for the DocumentType "Legal Contract
Amendment", the spec's exact-or-substring resolution rule selects the Legal
Contract entity template (the key "Legal Contract" occurs as a substring of
the computed prefix), while the code's exact dictionary lookup at line 134
selects the generic fallback instruction instead. -/
theorem c1_counterexample :
    specTemplateSelect entity_prompts entityDefault "Legal Contract Amendment"
      = entityLegalContract ∧
    entityBasePrompt "Legal Contract Amendment" = entityDefault ∧
    entityLegalContract ≠ entityDefault := by
  refine ⟨by decide, by decide, by decide⟩

set_option maxRecDepth 1000000 in
/-- Claim C1 (amended/corrected): for the three table-driven operations the
template is resolved by taking the DocumentType up to (not including) its
first '/' and looking that key up for an exact match against the table keys
(no substring matching); "Employment Document/extra text" selects the
Employment-specific template and an unrecognized type such as "Recipe Card"
selects the generic fallback for every operation, and the selected template
is embedded verbatim in the prompt each operation sends to the LLM. -/
theorem c1_template_resolution (text : String) :
    (∀ doc_type k v, (k, v) ∈ entity_prompts → pySplitHead doc_type = k →
      entityBasePrompt doc_type = v) ∧
    (∀ doc_type k v, (k, v) ∈ checklist_prompts → pySplitHead doc_type = k →
      checklistBasePrompt doc_type = v) ∧
    (∀ doc_type k v, (k, v) ∈ risk_prompts → pySplitHead doc_type = k →
      riskBasePrompt doc_type = v) ∧
    (∀ doc_type, pySplitHead doc_type ∉ entity_prompts.map Prod.fst →
      entityBasePrompt doc_type = entityDefault) ∧
    (∀ doc_type, pySplitHead doc_type ∉ checklist_prompts.map Prod.fst →
      checklistBasePrompt doc_type = checklistDefault) ∧
    (∀ doc_type, pySplitHead doc_type ∉ risk_prompts.map Prod.fst →
      riskBasePrompt doc_type = riskDefault) ∧
    (entityBasePrompt "Employment Document/extra text" = entityEmployment ∧
     checklistBasePrompt "Employment Document/extra text" = checklistEmployment ∧
     riskBasePrompt "Employment Document/extra text" = riskEmployment) ∧
    (entityBasePrompt "Recipe Card" = entityDefault ∧
     checklistBasePrompt "Recipe Card" = checklistDefault ∧
     riskBasePrompt "Recipe Card" = riskDefault) ∧
    (∀ doc_type, List.IsInfix (entityBasePrompt doc_type).data (entityPrompt text doc_type).data) ∧
    (∀ doc_type,
      List.IsInfix (checklistBasePrompt doc_type).data (checklistPrompt text doc_type).data) ∧
    (∀ doc_type, List.IsInfix (riskBasePrompt doc_type).data (riskPrompt text doc_type).data) := by
  refine ⟨?_, ?_, ?_, ?_, ?_, ?_, ⟨by decide, by decide, by decide⟩,
    ⟨by decide, by decide, by decide⟩, ?_, ?_, ?_⟩
  · intro doc_type k v hm he
    show pyGet entity_prompts (pySplitHead doc_type) entityDefault = v
    rw [he]
    simp only [entity_prompts, List.mem_cons, List.not_mem_nil, or_false, Prod.mk.injEq] at hm
    rcases hm with ⟨rfl, rfl⟩ | ⟨rfl, rfl⟩ | ⟨rfl, rfl⟩ | ⟨rfl, rfl⟩
    · decide
    · decide
    · decide
    · decide
  · intro doc_type k v hm he
    show pyGet checklist_prompts (pySplitHead doc_type) checklistDefault = v
    rw [he]
    simp only [checklist_prompts, List.mem_cons, List.not_mem_nil, or_false, Prod.mk.injEq] at hm
    rcases hm with ⟨rfl, rfl⟩ | ⟨rfl, rfl⟩ | ⟨rfl, rfl⟩ | ⟨rfl, rfl⟩
    · decide
    · decide
    · decide
    · decide
  · intro doc_type k v hm he
    show pyGet risk_prompts (pySplitHead doc_type) riskDefault = v
    rw [he]
    simp only [risk_prompts, List.mem_cons, List.not_mem_nil, or_false, Prod.mk.injEq] at hm
    rcases hm with ⟨rfl, rfl⟩ | ⟨rfl, rfl⟩ | ⟨rfl, rfl⟩ | ⟨rfl, rfl⟩
    · decide
    · decide
    · decide
    · decide
  · intro doc_type hd
    have h1 : pySplitHead doc_type ≠ "Legal Contract" := fun hh => hd (by rw [hh]; decide)
    have h2 : pySplitHead doc_type ≠ "Medical Policy" := fun hh => hd (by rw [hh]; decide)
    have h3 : pySplitHead doc_type ≠ "Medical Report" := fun hh => hd (by rw [hh]; decide)
    have h4 : pySplitHead doc_type ≠ "Employment Document" := fun hh => hd (by rw [hh]; decide)
    show pyGet entity_prompts (pySplitHead doc_type) entityDefault = entityDefault
    simp [entity_prompts, pyGet, h1, h2, h3, h4]
  · intro doc_type hd
    have h1 : pySplitHead doc_type ≠ "Legal Contract" := fun hh => hd (by rw [hh]; decide)
    have h2 : pySplitHead doc_type ≠ "Medical Policy" := fun hh => hd (by rw [hh]; decide)
    have h3 : pySplitHead doc_type ≠ "Medical Report" := fun hh => hd (by rw [hh]; decide)
    have h4 : pySplitHead doc_type ≠ "Employment Document" := fun hh => hd (by rw [hh]; decide)
    show pyGet checklist_prompts (pySplitHead doc_type) checklistDefault = checklistDefault
    simp [checklist_prompts, pyGet, h1, h2, h3, h4]
  · intro doc_type hd
    have h1 : pySplitHead doc_type ≠ "Legal Contract" := fun hh => hd (by rw [hh]; decide)
    have h2 : pySplitHead doc_type ≠ "Medical Policy" := fun hh => hd (by rw [hh]; decide)
    have h3 : pySplitHead doc_type ≠ "Medical Report" := fun hh => hd (by rw [hh]; decide)
    have h4 : pySplitHead doc_type ≠ "Employment Document" := fun hh => hd (by rw [hh]; decide)
    show pyGet risk_prompts (pySplitHead doc_type) riskDefault = riskDefault
    simp [risk_prompts, pyGet, h1, h2, h3, h4]
  · intro doc_type
    exact infix_mid5 _ _ _ _ _
  · intro doc_type
    exact infix_mid5 _ _ _ _ _
  · intro doc_type
    exact infix_mid5 _ _ _ _ _

set_option maxRecDepth 1000000 in
/-- Witness for C1's amended theorem at concrete table entries and types. -/
theorem c1_template_resolution_witness :
    (("Legal Contract", entityLegalContract) ∈ entity_prompts ∧
      pySplitHead "Legal Contract/Agreement" = "Legal Contract") ∧
    (entityBasePrompt "Legal Contract/Agreement" = entityLegalContract ∧
     checklistBasePrompt "Legal Contract/Agreement" = checklistLegalContract ∧
     riskBasePrompt "Legal Contract/Agreement" = riskLegalContract) ∧
    pySplitHead "Recipe Card" ∉ entity_prompts.map Prod.fst ∧
    List.IsInfix (entityBasePrompt "Recipe Card").data (entityPrompt "" "Recipe Card").data :=
  ⟨⟨by decide, by decide⟩,
   ⟨(c1_template_resolution "").1 "Legal Contract/Agreement" "Legal Contract" entityLegalContract
      (by decide) (by decide),
    (c1_template_resolution "").2.1 "Legal Contract/Agreement" "Legal Contract"
      checklistLegalContract (by decide) (by decide),
    (c1_template_resolution "").2.2.1 "Legal Contract/Agreement" "Legal Contract"
      riskLegalContract (by decide) (by decide)⟩,
   by decide,
   (c1_template_resolution "").2.2.2.2.2.2.2.2.1 "Recipe Card"⟩

/-- Claim C6: no public operation propagates an exception: for every input
and every behaviour of the external collaborators (each modelled as an
`Except`-valued function whose `error` is a raised exception), each
operation is total and its outcome is one of the explicitly enumerated
string results below — every collaborator failure is absorbed into a string
by the operation's handler, mirroring the source's try/except coverage. -/
theorem c6_total_no_exception (env : Env)
    (text doc_type question context language target_language : String)
    (pdf_files : List PdfDoc) :
    (∃ parts : List String, parts.length = pdf_files.length ∧
      extract_text_from_pdfs env pdf_files
        = pstrip (sjoin (parts.map (fun p => p ++ endMarkerSep)))) ∧
    ((∃ r, env.llm (detectPrompt text) = Except.ok r ∧
        detect_document_type env text = (pstrip r, [Call.llm (detectPrompt text)])) ∨
     (∃ e, env.llm (detectPrompt text) = Except.error e ∧
        detect_document_type env text
          = ("Document Classification (Error: " ++ e ++ ")", [Call.llm (detectPrompt text)]))) ∧
    ((∃ r, detect_document_type env text = (pstrip r, [Call.llm (detectPrompt text)])) ∨
     (∃ e, detect_document_type env text
        = ("Document Classification (Error: " ++ e ++ ")", [Call.llm (detectPrompt text)]))) ∧
    ((∃ r, (extract_key_entities env text doc_type).fst = pstrip r) ∨
     (∃ e, (extract_key_entities env text doc_type).fst = "Key entity extraction failed: " ++ e)) ∧
    ((∃ r, (generate_compliance_checklist env text doc_type).fst = pstrip r) ∨
     (∃ e, (generate_compliance_checklist env text doc_type).fst
        = "Checklist generation failed: " ++ e)) ∧
    ((∃ r, (explain_complex_terms env text doc_type).fst = pstrip r) ∨
     (∃ e, (explain_complex_terms env text doc_type).fst = "Term explanation failed: " ++ e)) ∧
    ((∃ r, (risk_assessment env text doc_type).fst = pstrip r) ∨
     (∃ e, (risk_assessment env text doc_type).fst = "Risk assessment failed: " ++ e)) ∧
    ((summarize_text env text doc_type).fst = "No content to summarize." ∨
     (∃ r, (summarize_text env text doc_type).fst = pstrip r) ∨
     (∃ e, (summarize_text env text doc_type).fst = "Document summary failed: " ++ e)) ∧
    ((simplify_text env text doc_type).fst = "No content to simplify." ∨
     (∃ r, (simplify_text env text doc_type).fst = pstrip r) ∨
     (∃ e, (simplify_text env text doc_type).fst = "Text simplification failed: " ++ e)) ∧
    ((ask_gemini env question context language doc_type).fst
        = "No content extracted from the documents." ∨
     (∃ r, (ask_gemini env question context language doc_type).fst = pstrip r) ∨
     (∃ e, (ask_gemini env question context language doc_type).fst
        = "I apologize, but I encountered an error while analyzing your question: " ++ e)) ∧
    ((translate_text env text target_language).fst = text ∨
     (∃ r, env.transSvc text (pyGet lang_map target_language ("en")) = Except.ok r ∧
        (translate_text env text target_language).fst = r) ∨
     (∃ r, (translate_text env text target_language).fst = pstrip r) ∨
     (∃ e, (translate_text env text target_language).fst
        = "Translation to " ++ target_language ++ " failed: " ++ e)) := by
  refine ⟨?_, ?_, ?_, ?_, ?_, ?_, ?_, ?_, ?_, ?_, ?_⟩
  · exact ⟨pdf_files.map (fun d => pstrip (docText env.ocrEnabled d)),
      by simp, by rw [extract_text_from_pdfs, List.map_map]; rfl⟩
  · cases h : env.llm (detectPrompt text) with
    | ok r => exact Or.inl ⟨r, rfl, by simp [detect_document_type, h]⟩
    | error e => exact Or.inr ⟨e, rfl, by simp [detect_document_type, h]⟩
  · cases h : env.llm (detectPrompt text) with
    | ok r => exact Or.inl ⟨r, by simp [detect_document_type, h]⟩
    | error e => exact Or.inr ⟨e, by simp [detect_document_type, h]⟩
  · cases h : env.llm (entityPrompt text doc_type) with
    | ok r => exact Or.inl ⟨r, by simp [extract_key_entities, h]⟩
    | error e => exact Or.inr ⟨e, by simp [extract_key_entities, h]⟩
  · cases h : env.llm (checklistPrompt text doc_type) with
    | ok r => exact Or.inl ⟨r, by simp [generate_compliance_checklist, h]⟩
    | error e => exact Or.inr ⟨e, by simp [generate_compliance_checklist, h]⟩
  · cases h : env.llm (termsPrompt text doc_type) with
    | ok r => exact Or.inl ⟨r, by simp [explain_complex_terms, h]⟩
    | error e => exact Or.inr ⟨e, by simp [explain_complex_terms, h]⟩
  · cases h : env.llm (riskPrompt text doc_type) with
    | ok r => exact Or.inl ⟨r, by simp [risk_assessment, h]⟩
    | error e => exact Or.inr ⟨e, by simp [risk_assessment, h]⟩
  · by_cases ht : text = ""
    · exact Or.inl (by simp [summarize_text, ht])
    · cases h : env.llm (summarizePrompt text doc_type) with
      | ok r => exact Or.inr (Or.inl ⟨r, by simp [summarize_text, ht, h]⟩)
      | error e => exact Or.inr (Or.inr ⟨e, by simp [summarize_text, ht, h]⟩)
  · by_cases ht : text = ""
    · exact Or.inl (by simp [simplify_text, ht])
    · cases h : env.llm (simplifyPrompt text doc_type) with
      | ok r => exact Or.inr (Or.inl ⟨r, by simp [simplify_text, ht, h]⟩)
      | error e => exact Or.inr (Or.inr ⟨e, by simp [simplify_text, ht, h]⟩)
  · by_cases hc : context = ""
    · exact Or.inl (by simp [ask_gemini, hc])
    · cases h : env.llm (askPrompt question context language doc_type) with
      | ok r => exact Or.inr (Or.inl ⟨r, by simp [ask_gemini, hc, h]⟩)
      | error e => exact Or.inr (Or.inr ⟨e, by simp [ask_gemini, hc, h]⟩)
  · by_cases hcond : text = "" ∨ target_language = "English"
    · exact Or.inl (by simp [translate_text, hcond])
    · cases hocr : env.ocrEnabled with
      | true =>
        cases hsvc : env.transSvc text (pyGet lang_map target_language ("en")) with
        | ok r =>
          exact Or.inr (Or.inl ⟨r, rfl, by simp [translate_text, hcond, hocr, hsvc]⟩)
        | error err =>
          cases hllm : env.llm (translatePrompt text target_language) with
          | ok r =>
            refine Or.inr (Or.inr (Or.inl ⟨r, ?_⟩))
            simp [translate_text, hcond, hocr, hsvc, translateViaGemini, hllm]
          | error e =>
            refine Or.inr (Or.inr (Or.inr ⟨e, ?_⟩))
            simp [translate_text, hcond, hocr, hsvc, translateViaGemini, hllm]
      | false =>
        cases hllm : env.llm (translatePrompt text target_language) with
        | ok r =>
          refine Or.inr (Or.inr (Or.inl ⟨r, ?_⟩))
          simp [translate_text, hcond, hocr, translateViaGemini, hllm]
        | error e =>
          refine Or.inr (Or.inr (Or.inr ⟨e, ?_⟩))
          simp [translate_text, hcond, hocr, translateViaGemini, hllm]
